import Mathlib

/- Shallow embedding of the phenopacket-builder crate (src/lib.rs, src/v2/mod.rs,
src/v2/core/base.rs, src/v2/core/individual.rs, src/v2/core/meta_data.rs,
src/v2/core/phenotypic_feature.rs, src/v2/phenopackets.rs).

Conventions of the embedding:
- The Rust phantom typestate parameters (the Set / Unset markers) are represented
  by an explicit two-valued Marker field on each builder structure.  A Rust
  method that exists only on the builder whose marker is Unset is embedded as an
  Option-returning function that yields none exactly when the marker is set:
  none encodes "no matching method exists on this typestate" at the call site.
  A Rust method provided by a generic impl over every marker state is embedded
  as a total function.
- A build implementation that Rust provides only for the all-Set builder type is
  embedded as an Option-returning function that is none unless every marker is
  set; an inner expect ("... must have been set") that would panic is likewise
  embedded as none.
- Rust String becomes Lean String; i32 and i64 become Int (the builders only
  store these values, no arithmetic is performed, so no wrap-around can occur);
  u32 becomes Nat; Vec becomes List; Option becomes Option.  prost message
  types that the builders merely carry (Measurement, Biosample, ...) are
  embedded as one-constructor placeholder types.
- The field named namespace underscore prefix of Resource is spelled
  namespacePrefix here, and iri underscore prefix is spelled iriPrefix. -/

namespace PB

/-- The two typestate markers of src/lib.rs (struct Set, struct Unset),
represented as data. -/
inductive Marker where
  | unset
  | set
  deriving DecidableEq

/-- prost Timestamp: seconds (i64) and nanos (i32). -/
structure Timestamp where
  seconds : Int
  nanos : Int
  deriving DecidableEq

/-- phenopackets OntologyClass. -/
structure OntologyClass where
  id : String
  label : String
  deriving DecidableEq

/-- phenopackets Age. -/
structure Age where
  iso8601duration : String
  deriving DecidableEq

/-- phenopackets GestationalAge. -/
structure GestationalAge where
  weeks : Int
  days : Int
  deriving DecidableEq

/-- The time element variants that the TimeElementBuilder constructs
(gestational age, age, ontology class, timestamp).  The schema declares more
alternatives (age range, interval) but no builder method produces them, so they
never occur in builder output. -/
inductive Element where
  | gestationalAge (g : GestationalAge)
  | age (a : Age)
  | ontologyClass (oc : OntologyClass)
  | timestamp (t : Timestamp)
  deriving DecidableEq

/-- phenopackets TimeElement: an optional element (oneof). -/
structure TimeElement where
  element : Option Element
  deriving DecidableEq

/-- vital_status Status enum. -/
inductive Status where
  | unknownStatus
  | alive
  | deceased
  deriving DecidableEq

/-- phenopackets VitalStatus. -/
structure VitalStatus where
  status : Status
  time_of_death : Option TimeElement
  cause_of_death : Option OntologyClass
  survival_time_in_days : Nat
  deriving DecidableEq

/-- Sex enum; the default (prost value 0) is unknownSex. -/
inductive Sex where
  | unknownSex
  | female
  | male
  | otherSex
  deriving DecidableEq

/-- KaryotypicSex enum; the default (prost value 0) is unknownKaryotype. -/
inductive KaryotypicSex where
  | unknownKaryotype
  | xx
  | xy
  | xo
  | xxy
  | xxyy
  | xxxy
  | xxxx
  | xyy
  | otherKaryotype
  deriving DecidableEq

/-- phenopackets Individual. -/
structure Individual where
  id : String
  alternate_ids : List String
  date_of_birth : Option Timestamp
  time_at_last_encounter : Option TimeElement
  vital_status : Option VitalStatus
  sex : Sex
  karyotypic_sex : KaryotypicSex
  gender : Option OntologyClass
  taxonomy : Option OntologyClass
  deriving DecidableEq

/-- phenopackets Resource (six mandatory string fields). -/
structure Resource where
  id : String
  name : String
  url : String
  version : String
  namespacePrefix : String
  iriPrefix : String
  deriving DecidableEq

/-- phenopackets Update. -/
structure Update where
  timestamp : Option Timestamp
  updated_by : String
  comment : String
  deriving DecidableEq

/-- phenopackets ExternalReference. -/
structure ExternalReference where
  id : String
  reference : String
  description : String
  deriving DecidableEq

/-- phenopackets MetaData.  Note that created stays an Option in the record
even though the builder tracks it with a marker. -/
structure MetaData where
  created : Option Timestamp
  created_by : String
  submitted_by : String
  resources : List Resource
  updates : List Update
  phenopacket_schema_version : String
  external_references : List ExternalReference
  deriving DecidableEq

/-- phenopackets Evidence (carried opaquely by PhenotypicFeatureBuilder). -/
structure Evidence where
  evidence_code : Option OntologyClass
  reference : Option ExternalReference
  deriving DecidableEq

/-- phenopackets PhenotypicFeature. -/
structure PhenotypicFeature where
  description : String
  type : Option OntologyClass
  excluded : Bool
  severity : Option OntologyClass
  modifiers : List OntologyClass
  onset : Option TimeElement
  resolution : Option TimeElement
  evidence : List Evidence
  deriving DecidableEq

/-- Placeholder for phenopackets Measurement (only carried, never built here). -/
inductive Measurement where
  | mk
  deriving DecidableEq

/-- Placeholder for phenopackets Biosample. -/
inductive Biosample where
  | mk
  deriving DecidableEq

/-- Placeholder for phenopackets Interpretation. -/
inductive Interpretation where
  | mk
  deriving DecidableEq

/-- Placeholder for phenopackets Disease. -/
inductive Disease where
  | mk
  deriving DecidableEq

/-- Placeholder for phenopackets MedicalAction. -/
inductive MedicalAction where
  | mk
  deriving DecidableEq

/-- Placeholder for phenopackets File. -/
inductive File where
  | mk
  deriving DecidableEq

/-- phenopackets Phenopacket. -/
structure Phenopacket where
  id : String
  subject : Option Individual
  phenotypic_features : List PhenotypicFeature
  measurements : List Measurement
  biosamples : List Biosample
  interpretations : List Interpretation
  diseases : List Disease
  medical_actions : List MedicalAction
  files : List File
  meta_data : Option MetaData
  deriving DecidableEq

/-- src/lib.rs fn oc: shortcut creating an OntologyClass from id and label. -/
def oc (id : String) (label : String) : OntologyClass :=
  { id := id, label := label }

/-- src/v2/core/base.rs OntologyClassBuilder (one marker for the combined
id and label slot; Default starts all fields at none, marker Unset). -/
structure OntologyClassBuilder where
  id : Option String := none
  label : Option String := none
  tState : Marker := .unset
  deriving DecidableEq

/-- OntologyClassBuilder id_label: only on the Unset builder; fills both fields
and moves the marker to Set. -/
def OntologyClassBuilder.id_label (b : OntologyClassBuilder) (id : String)
    (label : String) : Option OntologyClassBuilder :=
  match b.tState with
  | .unset => some { id := some id, label := some label, tState := .set }
  | .set => none

/-- Build impl for OntologyClassBuilder with marker Set; the two expect calls
("id must have been set", "label must have been set") are the inner none. -/
def OntologyClassBuilder.build (b : OntologyClassBuilder) : Option OntologyClass :=
  match b.tState with
  | .set =>
    match b.id, b.label with
    | some i, some l => some { id := i, label := l }
    | _, _ => none
  | .unset => none

/-- src/v2/core/base.rs TimeElementBuilder: one optional variant holder. -/
structure TimeElementBuilder where
  element : Option Element := none
  tState : Marker := .unset
  deriving DecidableEq

/-- TimeElementBuilder gestational_age: the generic impl applies on every
marker state and replaces whatever element was held. -/
def TimeElementBuilder.gestational_age (_b : TimeElementBuilder)
    (g : GestationalAge) : TimeElementBuilder :=
  { element := some (.gestationalAge g), tState := .set }

/-- TimeElementBuilder gestational_age_weeks (days defaults to 0). -/
def TimeElementBuilder.gestational_age_weeks (_b : TimeElementBuilder)
    (weeks : Int) : TimeElementBuilder :=
  { element := some (.gestationalAge { weeks := weeks, days := 0 }), tState := .set }

/-- TimeElementBuilder gestational_age_weeks_days. -/
def TimeElementBuilder.gestational_age_weeks_days (_b : TimeElementBuilder)
    (weeks : Int) (days : Int) : TimeElementBuilder :=
  { element := some (.gestationalAge { weeks := weeks, days := days }), tState := .set }

/-- TimeElementBuilder age. -/
def TimeElementBuilder.age (_b : TimeElementBuilder) (a : Age) : TimeElementBuilder :=
  { element := some (.age a), tState := .set }

/-- TimeElementBuilder age_iso8601duration. -/
def TimeElementBuilder.age_iso8601duration (_b : TimeElementBuilder)
    (iso8601duration : String) : TimeElementBuilder :=
  { element := some (.age { iso8601duration := iso8601duration }), tState := .set }

/-- TimeElementBuilder ontology_class. -/
def TimeElementBuilder.ontology_class (_b : TimeElementBuilder)
    (o : OntologyClass) : TimeElementBuilder :=
  { element := some (.ontologyClass o), tState := .set }

/-- TimeElementBuilder timestamp. -/
def TimeElementBuilder.timestamp (_b : TimeElementBuilder)
    (t : Timestamp) : TimeElementBuilder :=
  { element := some (.timestamp t), tState := .set }

/-- Build impl for TimeElementBuilder with marker Set (the expect on element
is the inner none). -/
def TimeElementBuilder.build (b : TimeElementBuilder) : Option TimeElement :=
  match b.tState with
  | .set =>
    match b.element with
    | some e => some { element := some e }
    | none => none
  | .unset => none

/-- The four variant alternatives a TimeElementBuilder can select, with their
payloads, used to quantify over pairs of alternatives. -/
inductive TEAlt where
  | gestationalAge (g : GestationalAge)
  | age (a : Age)
  | ontologyClass (o : OntologyClass)
  | timestamp (t : Timestamp)
  deriving DecidableEq

/-- The element stored by selecting a given alternative. -/
def TEAlt.toElement : TEAlt → Element
  | .gestationalAge g => .gestationalAge g
  | .age a => .age a
  | .ontologyClass o => .ontologyClass o
  | .timestamp t => .timestamp t

/-- Dispatch an alternative selection to the corresponding builder method. -/
def TimeElementBuilder.select (b : TimeElementBuilder) : TEAlt → TimeElementBuilder
  | .gestationalAge g => b.gestational_age g
  | .age a => b.age a
  | .ontologyClass o => b.ontology_class o
  | .timestamp t => b.timestamp t

/-- src/v2/core/base.rs AgeBuilder. -/
structure AgeBuilder where
  iso8601duration : Option String := none
  tState : Marker := .unset
  deriving DecidableEq

/-- AgeBuilder iso8601duration setter: only on the Unset builder. -/
def AgeBuilder.iso8601duration' (_b : AgeBuilder) (iso8601duration : String)
    : Option AgeBuilder :=
  match _b.tState with
  | .unset => some { iso8601duration := some iso8601duration, tState := .set }
  | .set => none

/-- Build impl for AgeBuilder with marker Set. -/
def AgeBuilder.build (b : AgeBuilder) : Option Age :=
  match b.tState with
  | .set =>
    match b.iso8601duration with
    | some d => some { iso8601duration := d }
    | none => none
  | .unset => none

/-- src/v2/core/base.rs GestationalAgeBuilder: weeks is the marker-tracked
mandatory field, days is an optional scalar. -/
structure GestationalAgeBuilder where
  weeks : Option Int := none
  days : Option Int := none
  tState : Marker := .unset
  deriving DecidableEq

/-- GestationalAgeBuilder weeks setter: only on the Unset builder; days is
carried over. -/
def GestationalAgeBuilder.weeks' (b : GestationalAgeBuilder) (weeks : Int)
    : Option GestationalAgeBuilder :=
  match b.tState with
  | .unset => some { weeks := some weeks, days := b.days, tState := .set }
  | .set => none

/-- GestationalAgeBuilder days setter: generic impl, any marker state,
marker unchanged. -/
def GestationalAgeBuilder.days' (b : GestationalAgeBuilder) (days : Int)
    : GestationalAgeBuilder :=
  { b with days := some days }

/-- Build impl for GestationalAgeBuilder with marker Set; an unset days
defaults to 0 (unwrap_or). -/
def GestationalAgeBuilder.build (b : GestationalAgeBuilder) : Option GestationalAge :=
  match b.tState with
  | .set =>
    match b.weeks with
    | some w => some { weeks := w, days := b.days.getD 0 }
    | none => none
  | .unset => none

/-- prost TimestampError, the recoverable error of iso8601timestamp. -/
inductive TimestampError where
  | invalidTimestamp
  deriving DecidableEq

/-- src/v2/mod.rs TimestampBuilder. -/
structure TimestampBuilder where
  timestamp : Option Timestamp := none
  tState : Marker := .unset
  deriving DecidableEq

/-- TimestampBuilder seconds_nanos: only on the Unset builder. -/
def TimestampBuilder.seconds_nanos (_b : TimestampBuilder) (seconds : Int)
    (nanos : Int) : Option TimestampBuilder :=
  match _b.tState with
  | .unset => some { timestamp := some { seconds := seconds, nanos := nanos }, tState := .set }
  | .set => none

/-- TimestampBuilder iso8601timestamp: only on the Unset builder.  The
ISO-8601 parser itself lives in the external prost-types crate (excluded by
the spec as an external collaborator), so it is abstracted as the parse
argument; the method returns Ok with a Set builder holding the parsed
timestamp when parse succeeds, and the recoverable TimestampError when it
fails. -/
def TimestampBuilder.iso8601timestamp (parse : String → Option Timestamp)
    (_b : TimestampBuilder) (s : String)
    : Option (Except TimestampError TimestampBuilder) :=
  match _b.tState with
  | .unset =>
    match parse s with
    | some t => some (.ok { timestamp := some t, tState := .set })
    | none => some (.error .invalidTimestamp)
  | .set => none

/-- Build impl for TimestampBuilder with marker Set. -/
def TimestampBuilder.build (b : TimestampBuilder) : Option Timestamp :=
  match b.tState with
  | .set => b.timestamp
  | .unset => none

/-- src/v2/core/individual.rs VitalStatusBuilder: status is the marker-tracked
mandatory field; the rest are optional scalars. -/
structure VitalStatusBuilder where
  status : Option Status := none
  time_of_death : Option TimeElement := none
  cause_of_death : Option OntologyClass := none
  survival_time_in_days : Option Nat := none
  tState : Marker := .unset
  deriving DecidableEq

/-- VitalStatusBuilder status setter.  Note: in the source this lives in the
generic impl over every marker T (not an Unset-only impl), so it is total:
it can be called again on an already-Set builder and overwrites the status. -/
def VitalStatusBuilder.status' (b : VitalStatusBuilder) (status : Status)
    : VitalStatusBuilder :=
  { status := some status, time_of_death := b.time_of_death,
    cause_of_death := b.cause_of_death,
    survival_time_in_days := b.survival_time_in_days, tState := .set }

/-- VitalStatusBuilder alive. -/
def VitalStatusBuilder.alive (b : VitalStatusBuilder) : VitalStatusBuilder :=
  b.status' .alive

/-- VitalStatusBuilder deceased. -/
def VitalStatusBuilder.deceased (b : VitalStatusBuilder) : VitalStatusBuilder :=
  b.status' .deceased

/-- VitalStatusBuilder time_of_death setter (generic impl, marker unchanged). -/
def VitalStatusBuilder.time_of_death' (b : VitalStatusBuilder) (t : TimeElement)
    : VitalStatusBuilder :=
  { b with time_of_death := some t }

/-- VitalStatusBuilder time_of_death_at_age. -/
def VitalStatusBuilder.time_of_death_at_age (b : VitalStatusBuilder) (a : Age)
    : VitalStatusBuilder :=
  { b with time_of_death := some { element := some (.age a) } }

/-- VitalStatusBuilder time_of_death_at_gestational_age. -/
def VitalStatusBuilder.time_of_death_at_gestational_age (b : VitalStatusBuilder)
    (g : GestationalAge) : VitalStatusBuilder :=
  { b with time_of_death := some { element := some (.gestationalAge g) } }

/-- VitalStatusBuilder cause_of_death setter. -/
def VitalStatusBuilder.cause_of_death' (b : VitalStatusBuilder) (c : OntologyClass)
    : VitalStatusBuilder :=
  { b with cause_of_death := some c }

/-- VitalStatusBuilder survival_time_in_days setter. -/
def VitalStatusBuilder.survival_time_in_days' (b : VitalStatusBuilder) (d : Nat)
    : VitalStatusBuilder :=
  { b with survival_time_in_days := some d }

/-- Build impl for VitalStatusBuilder with marker Set; an unset
survival_time_in_days defaults to 0 (unwrap_or_default). -/
def VitalStatusBuilder.build (b : VitalStatusBuilder) : Option VitalStatus :=
  match b.tState with
  | .set =>
    match b.status with
    | some st =>
      some { status := st, time_of_death := b.time_of_death,
             cause_of_death := b.cause_of_death,
             survival_time_in_days := b.survival_time_in_days.getD 0 }
    | none => none
  | .unset => none

/-- src/v2/core/individual.rs IndividualBuilder: id is the marker-tracked
mandatory field; the rest are optional scalars and collections. -/
structure IndividualBuilder where
  id : Option String := none
  alternate_ids : List String := []
  date_of_birth : Option Timestamp := none
  time_at_last_encounter : Option TimeElement := none
  vital_status : Option VitalStatus := none
  sex : Sex := .unknownSex
  karyotypic_sex : KaryotypicSex := .unknownKaryotype
  gender : Option OntologyClass := none
  taxonomy : Option OntologyClass := none
  tId : Marker := .unset
  deriving DecidableEq

/-- IndividualBuilder add_alternate_id (append one, generic impl). -/
def IndividualBuilder.add_alternate_id (b : IndividualBuilder) (i : String)
    : IndividualBuilder :=
  { b with alternate_ids := b.alternate_ids ++ [i] }

/-- IndividualBuilder extend_alternate_ids (bulk extend, order preserved). -/
def IndividualBuilder.extend_alternate_ids (b : IndividualBuilder)
    (is : List String) : IndividualBuilder :=
  { b with alternate_ids := b.alternate_ids ++ is }

/-- IndividualBuilder clear_alternate_ids. -/
def IndividualBuilder.clear_alternate_ids (b : IndividualBuilder)
    : IndividualBuilder :=
  { b with alternate_ids := [] }

/-- IndividualBuilder date_of_birth. -/
def IndividualBuilder.date_of_birth' (b : IndividualBuilder) (t : Timestamp)
    : IndividualBuilder :=
  { b with date_of_birth := some t }

/-- IndividualBuilder time_at_last_encounter. -/
def IndividualBuilder.time_at_last_encounter' (b : IndividualBuilder)
    (t : TimeElement) : IndividualBuilder :=
  { b with time_at_last_encounter := some t }

/-- IndividualBuilder vital_status. -/
def IndividualBuilder.vital_status' (b : IndividualBuilder) (v : VitalStatus)
    : IndividualBuilder :=
  { b with vital_status := some v }

/-- IndividualBuilder deceased: stores the result of building
VitalStatus builder deceased. -/
def IndividualBuilder.deceased (b : IndividualBuilder) : IndividualBuilder :=
  { b with vital_status := (VitalStatusBuilder.deceased {}).build }

/-- IndividualBuilder deceased_at. -/
def IndividualBuilder.deceased_at (b : IndividualBuilder) (t : TimeElement)
    : IndividualBuilder :=
  { b with vital_status := ((VitalStatusBuilder.deceased {}).time_of_death' t).build }

/-- IndividualBuilder alive. -/
def IndividualBuilder.alive (b : IndividualBuilder) : IndividualBuilder :=
  { b with vital_status := (VitalStatusBuilder.alive {}).build }

/-- IndividualBuilder sex setter. -/
def IndividualBuilder.sex' (b : IndividualBuilder) (s : Sex) : IndividualBuilder :=
  { b with sex := s }

/-- IndividualBuilder male. -/
def IndividualBuilder.male (b : IndividualBuilder) : IndividualBuilder :=
  b.sex' .male

/-- IndividualBuilder female. -/
def IndividualBuilder.female (b : IndividualBuilder) : IndividualBuilder :=
  b.sex' .female

/-- IndividualBuilder other_sex. -/
def IndividualBuilder.other_sex (b : IndividualBuilder) : IndividualBuilder :=
  b.sex' .otherSex

/-- IndividualBuilder karyotypic_sex setter (the nine shortcut methods all
call this with a fixed value, so one parameterized step covers them). -/
def IndividualBuilder.karyotypic_sex' (b : IndividualBuilder) (k : KaryotypicSex)
    : IndividualBuilder :=
  { b with karyotypic_sex := k }

/-- IndividualBuilder gender setter. -/
def IndividualBuilder.gender' (b : IndividualBuilder) (g : OntologyClass)
    : IndividualBuilder :=
  { b with gender := some g }

/-- IndividualBuilder taxonomy setter. -/
def IndividualBuilder.taxonomy' (b : IndividualBuilder) (t : OntologyClass)
    : IndividualBuilder :=
  { b with taxonomy := some t }

/-- IndividualBuilder homo_sapiens: taxonomy preset built through the
OntologyClass builder. -/
def IndividualBuilder.homo_sapiens (b : IndividualBuilder) : IndividualBuilder :=
  { b with taxonomy := Option.bind (({} : OntologyClassBuilder).id_label "NCBITaxon:9606" "homo sapiens") OntologyClassBuilder.build }

/-- IndividualBuilder id setter: only on the Unset builder; every other field
is carried over and the marker moves to Set. -/
def IndividualBuilder.id' (b : IndividualBuilder) (id : String)
    : Option IndividualBuilder :=
  match b.tId with
  | .unset =>
    some { id := some id, alternate_ids := b.alternate_ids,
           date_of_birth := b.date_of_birth,
           time_at_last_encounter := b.time_at_last_encounter,
           vital_status := b.vital_status, sex := b.sex,
           karyotypic_sex := b.karyotypic_sex, gender := b.gender,
           taxonomy := b.taxonomy, tId := .set }
  | .set => none

/-- Build impl for IndividualBuilder with marker Set. -/
def IndividualBuilder.build (b : IndividualBuilder) : Option Individual :=
  match b.tId with
  | .set =>
    match b.id with
    | some i =>
      some { id := i, alternate_ids := b.alternate_ids,
             date_of_birth := b.date_of_birth,
             time_at_last_encounter := b.time_at_last_encounter,
             vital_status := b.vital_status, sex := b.sex,
             karyotypic_sex := b.karyotypic_sex, gender := b.gender,
             taxonomy := b.taxonomy }
    | none => none
  | .unset => none

/-- src/v2/core/meta_data.rs MetaDataBuilder: created, created_by and
phenopacket_schema_version are the three marker-tracked mandatory fields. -/
structure MetaDataBuilder where
  created : Option Timestamp := none
  created_by : Option String := none
  submitted_by : Option String := none
  resources : List Resource := []
  updates : List Update := []
  phenopacket_schema_version : Option String := none
  external_references : List ExternalReference := []
  tCreated : Marker := .unset
  tCreatedBy : Marker := .unset
  tVersion : Marker := .unset
  deriving DecidableEq

/-- MetaDataBuilder created setter: only when the created marker is Unset;
all other fields and markers carried over. -/
def MetaDataBuilder.created' (b : MetaDataBuilder) (t : Timestamp)
    : Option MetaDataBuilder :=
  match b.tCreated with
  | .unset =>
    some { created := some t, created_by := b.created_by,
           submitted_by := b.submitted_by, resources := b.resources,
           updates := b.updates,
           phenopacket_schema_version := b.phenopacket_schema_version,
           external_references := b.external_references,
           tCreated := .set, tCreatedBy := b.tCreatedBy, tVersion := b.tVersion }
  | .set => none

/-- MetaDataBuilder created_by setter: only when the created_by marker is
Unset. -/
def MetaDataBuilder.created_by' (b : MetaDataBuilder) (s : String)
    : Option MetaDataBuilder :=
  match b.tCreatedBy with
  | .unset =>
    some { created := b.created, created_by := some s,
           submitted_by := b.submitted_by, resources := b.resources,
           updates := b.updates,
           phenopacket_schema_version := b.phenopacket_schema_version,
           external_references := b.external_references,
           tCreated := b.tCreated, tCreatedBy := .set, tVersion := b.tVersion }
  | .set => none

/-- MetaDataBuilder phenopacket_schema_version setter: only when the version
marker is Unset. -/
def MetaDataBuilder.phenopacket_schema_version' (b : MetaDataBuilder) (v : String)
    : Option MetaDataBuilder :=
  match b.tVersion with
  | .unset =>
    some { created := b.created, created_by := b.created_by,
           submitted_by := b.submitted_by, resources := b.resources,
           updates := b.updates, phenopacket_schema_version := some v,
           external_references := b.external_references,
           tCreated := b.tCreated, tCreatedBy := b.tCreatedBy, tVersion := .set }
  | .set => none

/-- MetaDataBuilder v2 preset (schema version "2.0.0"). -/
def MetaDataBuilder.v2 (b : MetaDataBuilder) : Option MetaDataBuilder :=
  b.phenopacket_schema_version' "2.0.0"

/-- MetaDataBuilder v2_0_2 preset (schema version "2.0.2"). -/
def MetaDataBuilder.v2_0_2 (b : MetaDataBuilder) : Option MetaDataBuilder :=
  b.phenopacket_schema_version' "2.0.2"

/-- MetaDataBuilder submitted_by setter (generic impl, any markers). -/
def MetaDataBuilder.submitted_by' (b : MetaDataBuilder) (s : String)
    : MetaDataBuilder :=
  { b with submitted_by := some s }

/-- MetaDataBuilder add_resource. -/
def MetaDataBuilder.add_resource (b : MetaDataBuilder) (r : Resource)
    : MetaDataBuilder :=
  { b with resources := b.resources ++ [r] }

/-- MetaDataBuilder extend_resources. -/
def MetaDataBuilder.extend_resources (b : MetaDataBuilder) (rs : List Resource)
    : MetaDataBuilder :=
  { b with resources := b.resources ++ rs }

/-- MetaDataBuilder clear_resources. -/
def MetaDataBuilder.clear_resources (b : MetaDataBuilder) : MetaDataBuilder :=
  { b with resources := [] }

/-- MetaDataBuilder add_update. -/
def MetaDataBuilder.add_update (b : MetaDataBuilder) (u : Update)
    : MetaDataBuilder :=
  { b with updates := b.updates ++ [u] }

/-- MetaDataBuilder extend_updates. -/
def MetaDataBuilder.extend_updates (b : MetaDataBuilder) (us : List Update)
    : MetaDataBuilder :=
  { b with updates := b.updates ++ us }

/-- MetaDataBuilder clear_updates. -/
def MetaDataBuilder.clear_updates (b : MetaDataBuilder) : MetaDataBuilder :=
  { b with updates := [] }

/-- MetaDataBuilder add_external_reference. -/
def MetaDataBuilder.add_external_reference (b : MetaDataBuilder)
    (e : ExternalReference) : MetaDataBuilder :=
  { b with external_references := b.external_references ++ [e] }

/-- MetaDataBuilder extend_external_references. -/
def MetaDataBuilder.extend_external_references (b : MetaDataBuilder)
    (es : List ExternalReference) : MetaDataBuilder :=
  { b with external_references := b.external_references ++ es }

/-- MetaDataBuilder clear_external_references. -/
def MetaDataBuilder.clear_external_references (b : MetaDataBuilder)
    : MetaDataBuilder :=
  { b with external_references := [] }

/-- Build impl for MetaDataBuilder with all three markers Set; created stays
an Option in the record, submitted_by defaults to the empty string, and the
two expect calls are the inner none. -/
def MetaDataBuilder.build (b : MetaDataBuilder) : Option MetaData :=
  match b.tCreated, b.tCreatedBy, b.tVersion with
  | .set, .set, .set =>
    match b.created_by, b.phenopacket_schema_version with
    | some cb, some v =>
      some { created := b.created, created_by := cb,
             submitted_by := b.submitted_by.getD "",
             resources := b.resources, updates := b.updates,
             phenopacket_schema_version := v,
             external_references := b.external_references }
    | _, _ => none
  | _, _, _ => none

/-- src/v2/core/meta_data.rs ResourceBuilder: six independently marker-tracked
mandatory string fields. -/
structure ResourceBuilder where
  id : Option String := none
  name : Option String := none
  namespacePrefix : Option String := none
  url : Option String := none
  version : Option String := none
  iriPrefix : Option String := none
  tId : Marker := .unset
  tName : Marker := .unset
  tNamespacePrefix : Marker := .unset
  tUrl : Marker := .unset
  tVersion : Marker := .unset
  tIriPrefix : Marker := .unset
  deriving DecidableEq

/-- ResourceBuilder id setter: only when the id marker is Unset. -/
def ResourceBuilder.id' (b : ResourceBuilder) (v : String) : Option ResourceBuilder :=
  match b.tId with
  | .unset => some { b with id := some v, tId := .set }
  | .set => none

/-- ResourceBuilder name setter: only when the name marker is Unset. -/
def ResourceBuilder.name' (b : ResourceBuilder) (v : String) : Option ResourceBuilder :=
  match b.tName with
  | .unset => some { b with name := some v, tName := .set }
  | .set => none

/-- ResourceBuilder setter for the namespace marker field: only when that
marker is Unset. -/
def ResourceBuilder.namespacePrefix' (b : ResourceBuilder) (v : String)
    : Option ResourceBuilder :=
  match b.tNamespacePrefix with
  | .unset => some { b with namespacePrefix := some v, tNamespacePrefix := .set }
  | .set => none

/-- ResourceBuilder url setter: only when the url marker is Unset. -/
def ResourceBuilder.url' (b : ResourceBuilder) (v : String) : Option ResourceBuilder :=
  match b.tUrl with
  | .unset => some { b with url := some v, tUrl := .set }
  | .set => none

/-- ResourceBuilder version setter: only when the version marker is Unset. -/
def ResourceBuilder.version' (b : ResourceBuilder) (v : String)
    : Option ResourceBuilder :=
  match b.tVersion with
  | .unset => some { b with version := some v, tVersion := .set }
  | .set => none

/-- ResourceBuilder setter for the iri marker field: only when that marker is
Unset. -/
def ResourceBuilder.iriPrefix' (b : ResourceBuilder) (v : String)
    : Option ResourceBuilder :=
  match b.tIriPrefix with
  | .unset => some { b with iriPrefix := some v, tIriPrefix := .set }
  | .set => none

/-- Helper shared by the domain presets of ResourceBuilder: a builder with all
six fields filled and every marker Set (each Rust preset constructs exactly
this shape, on any input marker state). -/
def ResourceBuilder.preset (id name namespacePrefix url version iriPrefix : String)
    : ResourceBuilder :=
  { id := some id, name := some name, namespacePrefix := some namespacePrefix,
    url := some url, version := some version, iriPrefix := some iriPrefix,
    tId := .set, tName := .set, tNamespacePrefix := .set, tUrl := .set,
    tVersion := .set, tIriPrefix := .set }

/-- ResourceBuilder hpo preset. -/
def ResourceBuilder.hpo (_b : ResourceBuilder) (version : String) : ResourceBuilder :=
  ResourceBuilder.preset "hp" "human phenotype ontology" "HP"
    "https://purl.obolibrary.org/obo/hp.owl" version
    "https://purl.obolibrary.org/obo/HP_"

/-- ResourceBuilder geno preset. -/
def ResourceBuilder.geno (_b : ResourceBuilder) (version : String) : ResourceBuilder :=
  ResourceBuilder.preset "geno" "genotype ontology" "GENO"
    "https://purl.obolibrary.org/obo/geno.owl" version
    "https://purl.obolibrary.org/obo/GENO_"

/-- ResourceBuilder ncit preset. -/
def ResourceBuilder.ncit (_b : ResourceBuilder) (version : String) : ResourceBuilder :=
  ResourceBuilder.preset "ncit" "NCI Thesaurus" "NCIT"
    "https://purl.obolibrary.org/obo/geno.owl" version
    "https://purl.obolibrary.org/obo/NCIT_"

/-- ResourceBuilder mondo preset. -/
def ResourceBuilder.mondo (_b : ResourceBuilder) (version : String) : ResourceBuilder :=
  ResourceBuilder.preset "mondo" "Mondo Disease Ontology" "MONDO"
    "https://purl.obolibrary.org/obo/mondo.obo" version
    "https://purl.obolibrary.org/obo/MONDO_"

/-- ResourceBuilder uberon preset. -/
def ResourceBuilder.uberon (_b : ResourceBuilder) (version : String) : ResourceBuilder :=
  ResourceBuilder.preset "uberon" "Uber-anatomy ontology" "UBERON"
    "https://purl.obolibrary.org/obo/uberon.owl" version
    "https://purl.obolibrary.org/obo/UBERON_"

/-- ResourceBuilder ncbi_taxon preset. -/
def ResourceBuilder.ncbi_taxon (_b : ResourceBuilder) (version : String)
    : ResourceBuilder :=
  ResourceBuilder.preset "ncbitaxon" "NCBI organismal classification" "NCBITaxon"
    "https://purl.obolibrary.org/obo/ncbitaxon.owl" version
    "https://purl.obolibrary.org/obo/NCBITaxon_"

/-- ResourceBuilder so preset. -/
def ResourceBuilder.so (_b : ResourceBuilder) (version : String) : ResourceBuilder :=
  ResourceBuilder.preset "so" "Sequence types and features ontology" "SO"
    "https://purl.obolibrary.org/obo/so.owl" version
    "https://purl.obolibrary.org/obo/SO_"

/-- ResourceBuilder ucum preset. -/
def ResourceBuilder.ucum (_b : ResourceBuilder) (version : String) : ResourceBuilder :=
  ResourceBuilder.preset "ucum" "Unified Code for Units of Measure" "UCUM"
    "https://ucum.org" version "https://units-of-measurement.org/"

/-- ResourceBuilder uo preset. -/
def ResourceBuilder.uo (_b : ResourceBuilder) (version : String) : ResourceBuilder :=
  ResourceBuilder.preset "uo" "Units of measurement ontology" "UO"
    "https://purl.obolibrary.org/obo/uo.owl" version
    "https://purl.obolibrary.org/obo/UO_"

/-- ResourceBuilder loinc preset. -/
def ResourceBuilder.loinc (_b : ResourceBuilder) (version : String) : ResourceBuilder :=
  ResourceBuilder.preset "loinc" "Logical Observation Identifiers Names and Codes"
    "LOINC" "https://loinc.org" version "https://loinc.org/"

/-- ResourceBuilder omim preset. -/
def ResourceBuilder.omim (_b : ResourceBuilder) (version : String) : ResourceBuilder :=
  ResourceBuilder.preset "omim" "An Online Catalog of Human Genes and Genetic Disorders"
    "OMIM" "https://www.omim.org" version "https://www.omim.org/entry/"

/-- ResourceBuilder hgnc preset. -/
def ResourceBuilder.hgnc (_b : ResourceBuilder) (version : String) : ResourceBuilder :=
  ResourceBuilder.preset "hgnc" "HUGO Gene Nomenclature Committee" "HGNC"
    "https://www.genenames.org" version
    "https://www.genenames.org/data/gene-symbol-report/#!/hgnc_id/"

/-- ResourceBuilder pmid preset (fixed empty version). -/
def ResourceBuilder.pmid (_b : ResourceBuilder) : ResourceBuilder :=
  ResourceBuilder.preset "pmid" "PubMed" "PMID" "https://pubmed.ncbi.nlm.nih.gov"
    "" "https://pubmed.ncbi.nlm.nih.gov/"

/-- Build impl for ResourceBuilder with all six markers Set; the six expect
calls are the inner none. -/
def ResourceBuilder.build (b : ResourceBuilder) : Option Resource :=
  match b.tId, b.tName, b.tNamespacePrefix, b.tUrl, b.tVersion, b.tIriPrefix with
  | .set, .set, .set, .set, .set, .set =>
    match b.id, b.name, b.namespacePrefix, b.url, b.version, b.iriPrefix with
    | some i, some n, some np, some u, some v, some ip =>
      some { id := i, name := n, url := u, version := v,
             namespacePrefix := np, iriPrefix := ip }
    | _, _, _, _, _, _ => none
  | _, _, _, _, _, _ => none

/-- src/v2/core/phenotypic_feature.rs PhenotypicFeatureBuilder: the type field
is the marker-tracked mandatory field. -/
structure PhenotypicFeatureBuilder where
  description : Option String := none
  type : Option OntologyClass := none
  excluded : Bool := false
  severity : Option OntologyClass := none
  modifiers : List OntologyClass := []
  onset : Option TimeElement := none
  resolution : Option TimeElement := none
  evidence : List Evidence := []
  tType : Marker := .unset
  deriving DecidableEq

/-- PhenotypicFeatureBuilder type setter: only on the Unset builder. -/
def PhenotypicFeatureBuilder.type' (b : PhenotypicFeatureBuilder)
    (t : OntologyClass) : Option PhenotypicFeatureBuilder :=
  match b.tType with
  | .unset => some { b with type := some t, tType := .set }
  | .set => none

/-- PhenotypicFeatureBuilder description setter. -/
def PhenotypicFeatureBuilder.description' (b : PhenotypicFeatureBuilder)
    (d : String) : PhenotypicFeatureBuilder :=
  { b with description := some d }

/-- PhenotypicFeatureBuilder observed. -/
def PhenotypicFeatureBuilder.observed (b : PhenotypicFeatureBuilder)
    : PhenotypicFeatureBuilder :=
  { b with excluded := false }

/-- PhenotypicFeatureBuilder excluded setter. -/
def PhenotypicFeatureBuilder.excluded' (b : PhenotypicFeatureBuilder)
    : PhenotypicFeatureBuilder :=
  { b with excluded := true }

/-- PhenotypicFeatureBuilder severity setter. -/
def PhenotypicFeatureBuilder.severity' (b : PhenotypicFeatureBuilder)
    (s : OntologyClass) : PhenotypicFeatureBuilder :=
  { b with severity := some s }

/-- PhenotypicFeatureBuilder add_modifier. -/
def PhenotypicFeatureBuilder.add_modifier (b : PhenotypicFeatureBuilder)
    (m : OntologyClass) : PhenotypicFeatureBuilder :=
  { b with modifiers := b.modifiers ++ [m] }

/-- PhenotypicFeatureBuilder extend_modifiers. -/
def PhenotypicFeatureBuilder.extend_modifiers (b : PhenotypicFeatureBuilder)
    (ms : List OntologyClass) : PhenotypicFeatureBuilder :=
  { b with modifiers := b.modifiers ++ ms }

/-- PhenotypicFeatureBuilder clear_modifiers. -/
def PhenotypicFeatureBuilder.clear_modifiers (b : PhenotypicFeatureBuilder)
    : PhenotypicFeatureBuilder :=
  { b with modifiers := [] }

/-- PhenotypicFeatureBuilder onset setter. -/
def PhenotypicFeatureBuilder.onset' (b : PhenotypicFeatureBuilder)
    (t : TimeElement) : PhenotypicFeatureBuilder :=
  { b with onset := some t }

/-- PhenotypicFeatureBuilder resolution setter. -/
def PhenotypicFeatureBuilder.resolution' (b : PhenotypicFeatureBuilder)
    (t : TimeElement) : PhenotypicFeatureBuilder :=
  { b with resolution := some t }

/-- PhenotypicFeatureBuilder add_evidence. -/
def PhenotypicFeatureBuilder.add_evidence (b : PhenotypicFeatureBuilder)
    (e : Evidence) : PhenotypicFeatureBuilder :=
  { b with evidence := b.evidence ++ [e] }

/-- PhenotypicFeatureBuilder extend_evidence. -/
def PhenotypicFeatureBuilder.extend_evidence (b : PhenotypicFeatureBuilder)
    (es : List Evidence) : PhenotypicFeatureBuilder :=
  { b with evidence := b.evidence ++ es }

/-- PhenotypicFeatureBuilder clear_evidence. -/
def PhenotypicFeatureBuilder.clear_evidence (b : PhenotypicFeatureBuilder)
    : PhenotypicFeatureBuilder :=
  { b with evidence := [] }

/-- Build impl for PhenotypicFeatureBuilder with marker Set; type stays an
Option in the record, an unset description defaults to the empty string. -/
def PhenotypicFeatureBuilder.build (b : PhenotypicFeatureBuilder)
    : Option PhenotypicFeature :=
  match b.tType with
  | .set =>
    some { description := b.description.getD "", type := b.type,
           excluded := b.excluded, severity := b.severity,
           modifiers := b.modifiers, onset := b.onset,
           resolution := b.resolution, evidence := b.evidence }
  | .unset => none

/-- src/v2/phenopackets.rs PhenopacketBuilder: id and meta_data are the two
marker-tracked mandatory fields. -/
structure PhenopacketBuilder where
  id : Option String := none
  subject : Option Individual := none
  phenotypic_features : List PhenotypicFeature := []
  measurements : List Measurement := []
  biosamples : List Biosample := []
  interpretations : List Interpretation := []
  diseases : List Disease := []
  medical_actions : List MedicalAction := []
  files : List File := []
  meta_data : Option MetaData := none
  tId : Marker := .unset
  tMetaData : Marker := .unset
  deriving DecidableEq

/-- PhenopacketBuilder id setter: only when the id marker is Unset. -/
def PhenopacketBuilder.id' (b : PhenopacketBuilder) (id : String)
    : Option PhenopacketBuilder :=
  match b.tId with
  | .unset => some { b with id := some id, tId := .set }
  | .set => none

/-- PhenopacketBuilder meta_data setter: only when the meta_data marker is
Unset. -/
def PhenopacketBuilder.meta_data' (b : PhenopacketBuilder) (m : MetaData)
    : Option PhenopacketBuilder :=
  match b.tMetaData with
  | .unset => some { b with meta_data := some m, tMetaData := .set }
  | .set => none

/-- PhenopacketBuilder subject setter (generic impl, any markers). -/
def PhenopacketBuilder.subject' (b : PhenopacketBuilder) (s : Individual)
    : PhenopacketBuilder :=
  { b with subject := some s }

/-- PhenopacketBuilder add_phenotypic_feature. -/
def PhenopacketBuilder.add_phenotypic_feature (b : PhenopacketBuilder)
    (f : PhenotypicFeature) : PhenopacketBuilder :=
  { b with phenotypic_features := b.phenotypic_features ++ [f] }

/-- PhenopacketBuilder extend_phenotypic_features. -/
def PhenopacketBuilder.extend_phenotypic_features (b : PhenopacketBuilder)
    (fs : List PhenotypicFeature) : PhenopacketBuilder :=
  { b with phenotypic_features := b.phenotypic_features ++ fs }

/-- PhenopacketBuilder clear_phenotypic_features. -/
def PhenopacketBuilder.clear_phenotypic_features (b : PhenopacketBuilder)
    : PhenopacketBuilder :=
  { b with phenotypic_features := [] }

/-- Build impl for PhenopacketBuilder with both markers Set; meta_data stays
an Option in the record, the expect on id is the inner none. -/
def PhenopacketBuilder.build (b : PhenopacketBuilder) : Option Phenopacket :=
  match b.tId, b.tMetaData with
  | .set, .set =>
    match b.id with
    | some i =>
      some { id := i, subject := b.subject,
             phenotypic_features := b.phenotypic_features,
             measurements := b.measurements, biosamples := b.biosamples,
             interpretations := b.interpretations, diseases := b.diseases,
             medical_actions := b.medical_actions, files := b.files,
             meta_data := b.meta_data }
    | none => none
  | _, _ => none

/-- Run a list of builder operations from a state; a step that has no
matching method on the current typestate (none) aborts the whole run. -/
def runOps {σ α : Type} (step : σ → α → Option σ) : σ → List α → Option σ
  | s, [] => some s
  | s, a :: as => (step s a).bind fun s' => runOps step s' as

/-- If every pair of operations commutes (in the Kleisli sense), a run is
invariant under permutation of its operation list. -/
theorem runOps_perm {σ α : Type} (step : σ → α → Option σ)
    (comm : ∀ s a b, (step s a).bind (fun s' => step s' b)
      = (step s b).bind (fun s' => step s' a))
    {l₁ l₂ : List α} (h : l₁.Perm l₂) :
    ∀ s, runOps step s l₁ = runOps step s l₂ := by
  induction h with
  | nil => intro s; rfl
  | cons a _ ih =>
    intro s
    show (step s a).bind _ = (step s a).bind _
    cases step s a with
    | none => rfl
    | some s' => exact ih s'
  | swap a b l =>
    intro s
    show (step s b).bind (fun s₁ => (step s₁ a).bind fun s₂ => runOps step s₂ l)
      = (step s a).bind (fun s₁ => (step s₁ b).bind fun s₂ => runOps step s₂ l)
    rw [← Option.bind_assoc, ← Option.bind_assoc, comm]
  | trans _ _ ih₁ ih₂ =>
    intro s
    rw [ih₁ s, ih₂ s]

/-- A property preserved by every successful step is preserved by every
successful run. -/
theorem runOps_preserves {σ α : Type} (step : σ → α → Option σ) (P : σ → Prop)
    (hstep : ∀ s a s', step s a = some s' → P s → P s') :
    ∀ (l : List α) (s s' : σ), runOps step s l = some s' → P s → P s' := by
  intro l
  induction l with
  | nil =>
    intro s s' h hp
    simp only [runOps, Option.some.injEq] at h
    exact h ▸ hp
  | cons a as ih =>
    intro s s' h hp
    cases hsa : step s a with
    | none => rw [runOps, hsa] at h; cases h
    | some s₁ =>
      rw [runOps, hsa] at h
      exact ih s₁ s' h (hstep s a s₁ hsa hp)

/-- The three mandatory-field setter operations of MetaDataBuilder. -/
inductive MDOp where
  | created (t : Timestamp)
  | created_by (s : String)
  | version (v : String)
  deriving DecidableEq

/-- Step function dispatching a MetaDataBuilder mandatory-setter operation. -/
def MDstep (b : MetaDataBuilder) : MDOp → Option MetaDataBuilder
  | .created t => b.created' t
  | .created_by s => b.created_by' s
  | .version v => b.phenopacket_schema_version' v

/-- Any two MetaDataBuilder mandatory setters commute: they touch disjoint
slots, and a repeated setter fails in either order. -/
theorem MDstep_comm (s : MetaDataBuilder) (a b : MDOp) :
    (MDstep s a).bind (fun s' => MDstep s' b)
      = (MDstep s b).bind (fun s' => MDstep s' a) := by
  obtain ⟨c, cb, sb, rs, us, v, er, m₁, m₂, m₃⟩ := s
  cases a <;> cases b <;> cases m₁ <;> cases m₂ <;> cases m₃ <;> rfl

/-- The two mandatory-field setter operations of PhenopacketBuilder. -/
inductive PPOp where
  | id (s : String)
  | meta_data (m : MetaData)
  deriving DecidableEq

/-- Step function dispatching a PhenopacketBuilder mandatory-setter
operation. -/
def PPstep (b : PhenopacketBuilder) : PPOp → Option PhenopacketBuilder
  | .id s => b.id' s
  | .meta_data m => b.meta_data' m

/-- The two PhenopacketBuilder mandatory setters commute. -/
theorem PPstep_comm (s : PhenopacketBuilder) (a b : PPOp) :
    (PPstep s a).bind (fun s' => PPstep s' b)
      = (PPstep s b).bind (fun s' => PPstep s' a) := by
  obtain ⟨i, su, pf, ms, bs, it, ds, ma, fs, md, m₁, m₂⟩ := s
  cases a <;> cases b <;> cases m₁ <;> cases m₂ <;> rfl

/-- The six mandatory-field setter operations of ResourceBuilder. -/
inductive RSetOp where
  | id (v : String)
  | name (v : String)
  | namespacePrefix (v : String)
  | url (v : String)
  | version (v : String)
  | iriPrefix (v : String)
  deriving DecidableEq

/-- Step function dispatching a ResourceBuilder mandatory-setter operation. -/
def RSetStep (b : ResourceBuilder) : RSetOp → Option ResourceBuilder
  | .id v => b.id' v
  | .name v => b.name' v
  | .namespacePrefix v => b.namespacePrefix' v
  | .url v => b.url' v
  | .version v => b.version' v
  | .iriPrefix v => b.iriPrefix' v

/-- Any two ResourceBuilder mandatory setters commute. -/
theorem RSetStep_comm (s : ResourceBuilder) (a b : RSetOp) :
    (RSetStep s a).bind (fun s' => RSetStep s' b)
      = (RSetStep s b).bind (fun s' => RSetStep s' a) := by
  obtain ⟨i, n, np, u, v, ip, m₁, m₂, m₃, m₄, m₅, m₆⟩ := s
  cases a <;> cases b <;> cases m₁ <;> cases m₂ <;> cases m₃ <;> cases m₄ <;>
    cases m₅ <;> cases m₆ <;> rfl

/-- The public operations of OntologyClassBuilder. -/
inductive OCOp where
  | id_label (id label : String)
  deriving DecidableEq

/-- Step function for the OntologyClassBuilder public API. -/
def OCstep (b : OntologyClassBuilder) : OCOp → Option OntologyClassBuilder
  | .id_label i l => b.id_label i l

/-- Invariant tying the OntologyClassBuilder marker to its data: a Set marker
means both id and label are populated. -/
def OCInv (b : OntologyClassBuilder) : Prop :=
  b.tState = .set → b.id.isSome ∧ b.label.isSome

/-- Every OntologyClassBuilder public step preserves the marker invariant. -/
theorem OCstep_inv (b : OntologyClassBuilder) (op : OCOp)
    (b' : OntologyClassBuilder) (h : OCstep b op = some b') (hp : OCInv b) :
    OCInv b' := by
  cases op with
  | id_label i l =>
    unfold OCstep OntologyClassBuilder.id_label at h
    cases hm : b.tState with
    | set => rw [hm] at h; cases h
    | unset =>
      rw [hm] at h
      obtain rfl := Option.some.inj h
      exact fun _ => ⟨rfl, rfl⟩

/-- The public operations of ResourceBuilder: the six mandatory setters and
the thirteen domain presets. -/
inductive ROp where
  | id (v : String)
  | name (v : String)
  | namespacePrefix (v : String)
  | url (v : String)
  | version (v : String)
  | iriPrefix (v : String)
  | hpo (v : String)
  | geno (v : String)
  | ncit (v : String)
  | mondo (v : String)
  | uberon (v : String)
  | ncbi_taxon (v : String)
  | so (v : String)
  | ucum (v : String)
  | uo (v : String)
  | loinc (v : String)
  | omim (v : String)
  | hgnc (v : String)
  | pmid
  deriving DecidableEq

/-- Step function for the ResourceBuilder public API (presets are total). -/
def Rstep (b : ResourceBuilder) : ROp → Option ResourceBuilder
  | .id v => b.id' v
  | .name v => b.name' v
  | .namespacePrefix v => b.namespacePrefix' v
  | .url v => b.url' v
  | .version v => b.version' v
  | .iriPrefix v => b.iriPrefix' v
  | .hpo v => some (b.hpo v)
  | .geno v => some (b.geno v)
  | .ncit v => some (b.ncit v)
  | .mondo v => some (b.mondo v)
  | .uberon v => some (b.uberon v)
  | .ncbi_taxon v => some (b.ncbi_taxon v)
  | .so v => some (b.so v)
  | .ucum v => some (b.ucum v)
  | .uo v => some (b.uo v)
  | .loinc v => some (b.loinc v)
  | .omim v => some (b.omim v)
  | .hgnc v => some (b.hgnc v)
  | .pmid => some b.pmid

/-- Invariant tying each ResourceBuilder marker to its data field. -/
def RInv (b : ResourceBuilder) : Prop :=
  (b.tId = .set → b.id.isSome) ∧ (b.tName = .set → b.name.isSome)
  ∧ (b.tNamespacePrefix = .set → b.namespacePrefix.isSome)
  ∧ (b.tUrl = .set → b.url.isSome) ∧ (b.tVersion = .set → b.version.isSome)
  ∧ (b.tIriPrefix = .set → b.iriPrefix.isSome)

/-- A preset result always satisfies the ResourceBuilder invariant. -/
theorem RInv_preset (i n np u v ip : String) :
    RInv (ResourceBuilder.preset i n np u v ip) :=
  ⟨fun _ => rfl, fun _ => rfl, fun _ => rfl, fun _ => rfl, fun _ => rfl,
   fun _ => rfl⟩

/-- Every ResourceBuilder public step preserves the marker invariant. -/
theorem Rstep_inv (b : ResourceBuilder) (op : ROp) (b' : ResourceBuilder)
    (h : Rstep b op = some b') (hp : RInv b) : RInv b' := by
  obtain ⟨h₁, h₂, h₃, h₄, h₅, h₆⟩ := hp
  cases op with
  | id v =>
    unfold Rstep ResourceBuilder.id' at h
    cases hm : b.tId with
    | set => rw [hm] at h; cases h
    | unset =>
      rw [hm] at h
      obtain rfl := Option.some.inj h
      exact ⟨fun _ => rfl, h₂, h₃, h₄, h₅, h₆⟩
  | name v =>
    unfold Rstep ResourceBuilder.name' at h
    cases hm : b.tName with
    | set => rw [hm] at h; cases h
    | unset =>
      rw [hm] at h
      obtain rfl := Option.some.inj h
      exact ⟨h₁, fun _ => rfl, h₃, h₄, h₅, h₆⟩
  | namespacePrefix v =>
    unfold Rstep ResourceBuilder.namespacePrefix' at h
    cases hm : b.tNamespacePrefix with
    | set => rw [hm] at h; cases h
    | unset =>
      rw [hm] at h
      obtain rfl := Option.some.inj h
      exact ⟨h₁, h₂, fun _ => rfl, h₄, h₅, h₆⟩
  | url v =>
    unfold Rstep ResourceBuilder.url' at h
    cases hm : b.tUrl with
    | set => rw [hm] at h; cases h
    | unset =>
      rw [hm] at h
      obtain rfl := Option.some.inj h
      exact ⟨h₁, h₂, h₃, fun _ => rfl, h₅, h₆⟩
  | version v =>
    unfold Rstep ResourceBuilder.version' at h
    cases hm : b.tVersion with
    | set => rw [hm] at h; cases h
    | unset =>
      rw [hm] at h
      obtain rfl := Option.some.inj h
      exact ⟨h₁, h₂, h₃, h₄, fun _ => rfl, h₆⟩
  | iriPrefix v =>
    unfold Rstep ResourceBuilder.iriPrefix' at h
    cases hm : b.tIriPrefix with
    | set => rw [hm] at h; cases h
    | unset =>
      rw [hm] at h
      obtain rfl := Option.some.inj h
      exact ⟨h₁, h₂, h₃, h₄, h₅, fun _ => rfl⟩
  | hpo v => exact Option.some.inj h ▸ RInv_preset _ _ _ _ _ _
  | geno v => exact Option.some.inj h ▸ RInv_preset _ _ _ _ _ _
  | ncit v => exact Option.some.inj h ▸ RInv_preset _ _ _ _ _ _
  | mondo v => exact Option.some.inj h ▸ RInv_preset _ _ _ _ _ _
  | uberon v => exact Option.some.inj h ▸ RInv_preset _ _ _ _ _ _
  | ncbi_taxon v => exact Option.some.inj h ▸ RInv_preset _ _ _ _ _ _
  | so v => exact Option.some.inj h ▸ RInv_preset _ _ _ _ _ _
  | ucum v => exact Option.some.inj h ▸ RInv_preset _ _ _ _ _ _
  | uo v => exact Option.some.inj h ▸ RInv_preset _ _ _ _ _ _
  | loinc v => exact Option.some.inj h ▸ RInv_preset _ _ _ _ _ _
  | omim v => exact Option.some.inj h ▸ RInv_preset _ _ _ _ _ _
  | hgnc v => exact Option.some.inj h ▸ RInv_preset _ _ _ _ _ _
  | pmid => exact Option.some.inj h ▸ RInv_preset _ _ _ _ _ _

/-- The public operations of IndividualBuilder (the nine karyotypic shortcut
methods all delegate to the karyotypic_sex setter with a fixed value, so the
parameterized operation covers their images). -/
inductive IOp where
  | add_alternate_id (s : String)
  | extend_alternate_ids (l : List String)
  | clear_alternate_ids
  | date_of_birth (t : Timestamp)
  | time_at_last_encounter (t : TimeElement)
  | vital_status (v : VitalStatus)
  | deceased
  | deceased_at (t : TimeElement)
  | alive
  | sex (s : Sex)
  | male
  | female
  | other_sex
  | karyotypic_sex (k : KaryotypicSex)
  | gender (g : OntologyClass)
  | taxonomy (o : OntologyClass)
  | homo_sapiens
  | id (s : String)
  deriving DecidableEq

/-- Step function for the IndividualBuilder public API. -/
def Istep (b : IndividualBuilder) : IOp → Option IndividualBuilder
  | .add_alternate_id s => some (b.add_alternate_id s)
  | .extend_alternate_ids l => some (b.extend_alternate_ids l)
  | .clear_alternate_ids => some b.clear_alternate_ids
  | .date_of_birth t => some (b.date_of_birth' t)
  | .time_at_last_encounter t => some (b.time_at_last_encounter' t)
  | .vital_status v => some (b.vital_status' v)
  | .deceased => some b.deceased
  | .deceased_at t => some (b.deceased_at t)
  | .alive => some b.alive
  | .sex s => some (b.sex' s)
  | .male => some b.male
  | .female => some b.female
  | .other_sex => some b.other_sex
  | .karyotypic_sex k => some (b.karyotypic_sex' k)
  | .gender g => some (b.gender' g)
  | .taxonomy o => some (b.taxonomy' o)
  | .homo_sapiens => some b.homo_sapiens
  | .id s => b.id' s

/-- Invariant tying the IndividualBuilder id marker to its data. -/
def IInv (b : IndividualBuilder) : Prop :=
  b.tId = .set → b.id.isSome

/-- Every IndividualBuilder public step preserves the marker invariant. -/
theorem Istep_inv (b : IndividualBuilder) (op : IOp) (b' : IndividualBuilder)
    (h : Istep b op = some b') (hp : IInv b) : IInv b' := by
  cases op <;>
    first
    | (obtain rfl := Option.some.inj h; exact hp)
    | (rename_i s
       unfold Istep IndividualBuilder.id' at h
       cases hm : b.tId with
       | set => rw [hm] at h; cases h
       | unset =>
         rw [hm] at h
         obtain rfl := Option.some.inj h
         exact fun _ => rfl)

/-- C2 counterexample: VitalStatusBuilder status is not Empty-only.  Its
setter comes from the generic impl over every marker state, so assigning the
mandatory status field twice is possible: the second call has a matching
operation, succeeds on an already-Set builder, and overwrites the first
value. -/
theorem c2_counterexample_status_twice :
    ((({} : VitalStatusBuilder).status' .alive).status' .deceased).status
        = some Status.deceased
    ∧ (({} : VitalStatusBuilder).status' .alive).tState = Marker.set :=
  ⟨rfl, rfl⟩

/-- C2 amended: the slot-guarded mandatory setters (MetaDataBuilder created,
IndividualBuilder id, and the other marker-indexed setters) are Empty-only,
so after a first call the marker is Set and a second call has no matching
operation; but VitalStatusBuilder status is defined for every marker state,
so a second call is possible and simply overwrites (last-write-wins). -/
theorem c2_amended_empty_only_setters :
    (∀ (b b' : MetaDataBuilder) (t t' : Timestamp),
       b.created' t = some b' → b'.created' t' = none)
  ∧ (∀ (b b' : IndividualBuilder) (s s' : String),
       b.id' s = some b' → b'.id' s' = none)
  ∧ (∀ (b : VitalStatusBuilder) (st st' : Status),
       ((b.status' st).status' st').status = some st') := by
  refine ⟨?_, ?_, ?_⟩
  · intro b b' t t' h
    unfold MetaDataBuilder.created' at h ⊢
    cases hm : b.tCreated with
    | set => rw [hm] at h; cases h
    | unset =>
      rw [hm] at h
      obtain rfl := Option.some.inj h
      rfl
  · intro b b' s s' h
    unfold IndividualBuilder.id' at h ⊢
    cases hm : b.tId with
    | set => rw [hm] at h; cases h
    | unset =>
      rw [hm] at h
      obtain rfl := Option.some.inj h
      rfl
  · intro b st st'
    rfl

/-- Witness for the amended C2 theorem: concrete first calls succeed and the
second call on the resulting Set-state builder has no matching operation. -/
theorem c2_amended_witness :
    MetaDataBuilder.created'
      { created := some { seconds := 1, nanos := 2 }, tCreated := Marker.set }
      { seconds := 3, nanos := 4 } = none
    ∧ IndividualBuilder.id' { id := some "patient-1", tId := Marker.set }
        "patient-2" = none :=
  ⟨c2_amended_empty_only_setters.1 {}
     { created := some { seconds := 1, nanos := 2 }, tCreated := Marker.set }
     { seconds := 1, nanos := 2 } { seconds := 3, nanos := 4 } rfl,
   c2_amended_empty_only_setters.2.1 {}
     { id := some "patient-1", tId := Marker.set } "patient-1" "patient-2" rfl⟩

/-- C3: building an OntologyClass through id_label and finalizing returns the
two strings unchanged (in particular for "HP:0001250" / "Seizure"), the oc
shortcut reads back both fields unchanged, and omitting the setter leaves the
builder in the Unset state where build is unreachable (none). -/
theorem c3_ontology_class_round_trip :
    (∀ id label : String,
       (({} : OntologyClassBuilder).id_label id label).bind
           OntologyClassBuilder.build
         = some { id := id, label := label })
    ∧ ((({} : OntologyClassBuilder).id_label "HP:0001250" "Seizure").bind
         OntologyClassBuilder.build
         = some { id := "HP:0001250", label := "Seizure" })
    ∧ (∀ id label : String, (oc id label).id = id ∧ (oc id label).label = label)
    ∧ (({} : OntologyClassBuilder).build = none) :=
  ⟨fun _ _ => rfl, rfl, fun _ _ => ⟨rfl, rfl⟩, rfl⟩

/-- C4: the cited mandatory-field setters (IndividualBuilder id,
MetaDataBuilder created, GestationalAgeBuilder weeks) carry every other field
over unchanged and flip only their own marker from Unset to Set. -/
theorem c4_mandatory_setter_frame :
    (∀ (b b' : IndividualBuilder) (s : String), b.id' s = some b' →
       b'.id = some s ∧ b'.alternate_ids = b.alternate_ids
       ∧ b'.date_of_birth = b.date_of_birth
       ∧ b'.time_at_last_encounter = b.time_at_last_encounter
       ∧ b'.vital_status = b.vital_status ∧ b'.sex = b.sex
       ∧ b'.karyotypic_sex = b.karyotypic_sex ∧ b'.gender = b.gender
       ∧ b'.taxonomy = b.taxonomy ∧ b.tId = .unset ∧ b'.tId = .set)
    ∧ (∀ (b b' : MetaDataBuilder) (t : Timestamp), b.created' t = some b' →
       b'.created = some t ∧ b'.created_by = b.created_by
       ∧ b'.submitted_by = b.submitted_by ∧ b'.resources = b.resources
       ∧ b'.updates = b.updates
       ∧ b'.phenopacket_schema_version = b.phenopacket_schema_version
       ∧ b'.external_references = b.external_references
       ∧ b.tCreated = .unset ∧ b'.tCreated = .set
       ∧ b'.tCreatedBy = b.tCreatedBy ∧ b'.tVersion = b.tVersion)
    ∧ (∀ (b b' : GestationalAgeBuilder) (w : Int), b.weeks' w = some b' →
       b'.weeks = some w ∧ b'.days = b.days
       ∧ b.tState = .unset ∧ b'.tState = .set) := by
  refine ⟨?_, ?_, ?_⟩
  · intro b b' s h
    unfold IndividualBuilder.id' at h
    cases hm : b.tId with
    | set => rw [hm] at h; cases h
    | unset =>
      rw [hm] at h
      obtain rfl := Option.some.inj h
      exact ⟨rfl, rfl, rfl, rfl, rfl, rfl, rfl, rfl, rfl, rfl, rfl⟩
  · intro b b' t h
    unfold MetaDataBuilder.created' at h
    cases hm : b.tCreated with
    | set => rw [hm] at h; cases h
    | unset =>
      rw [hm] at h
      obtain rfl := Option.some.inj h
      exact ⟨rfl, rfl, rfl, rfl, rfl, rfl, rfl, rfl, rfl, rfl, rfl⟩
  · intro b b' w h
    unfold GestationalAgeBuilder.weeks' at h
    cases hm : b.tState with
    | set => rw [hm] at h; cases h
    | unset =>
      rw [hm] at h
      obtain rfl := Option.some.inj h
      exact ⟨rfl, rfl, rfl, rfl⟩

/-- Witness for C4: the frame conditions at concrete inputs, the setter
hypothesis discharged by evaluation. -/
theorem c4_witness :
    (IndividualBuilder.id'
        (IndividualBuilder.add_alternate_id {} "alt-1") "patient-1"
      = some { id := some "patient-1", alternate_ids := ["alt-1"], tId := .set })
    ∧ (IndividualBuilder.add_alternate_id {} "alt-1").tId = Marker.unset := by
  have h := c4_mandatory_setter_frame.1
    (IndividualBuilder.add_alternate_id {} "alt-1")
    { id := some "patient-1", alternate_ids := ["alt-1"], tId := .set }
    "patient-1" rfl
  exact ⟨rfl, h.2.2.2.2.2.2.2.2.2.1⟩

/-- C6: on a TimeElementBuilder in any state, selecting variant alternative A
and then alternative B and building yields a TimeElement holding exactly B's
payload; the earlier selection is discarded, never combined. -/
theorem c6_variant_last_write_wins :
    ∀ (b : TimeElementBuilder) (a₁ a₂ : TEAlt),
      ((b.select a₁).select a₂).build = some { element := some a₂.toElement } := by
  intro b a₁ a₂
  cases a₂ <;> rfl

/-- C7: append-one three times on an optional-collection field yields the
3-element sequence in call order (shown generally and from the fresh
builder), and clear yields the empty sequence from any builder state,
for IndividualBuilder alternate_ids and MetaDataBuilder resources. -/
theorem c7_collection_append_clear :
    (∀ (b : IndividualBuilder) (x : String),
       (b.add_alternate_id x).alternate_ids = b.alternate_ids ++ [x])
    ∧ (∀ x y z : String,
       ((((({} : IndividualBuilder).add_alternate_id x).add_alternate_id y).add_alternate_id z)).alternate_ids
         = [x, y, z])
    ∧ (∀ b : IndividualBuilder, b.clear_alternate_ids.alternate_ids = [])
    ∧ (∀ (b : MetaDataBuilder) (r : Resource),
       (b.add_resource r).resources = b.resources ++ [r])
    ∧ (∀ x y z : Resource,
       ((((({} : MetaDataBuilder).add_resource x).add_resource y).add_resource z)).resources
         = [x, y, z])
    ∧ (∀ b : MetaDataBuilder, b.clear_resources.resources = []) :=
  ⟨fun _ _ => rfl, fun _ _ _ => rfl, fun _ => rfl, fun _ _ => rfl,
   fun _ _ _ => rfl, fun _ => rfl⟩

/-- C9: optional scalars never written finalize to their documented neutral
defaults: unset survival_time_in_days builds to 0, an unset phenotypic
feature description builds to the empty string, and unset GestationalAge
days builds to 0. -/
theorem c9_optional_scalar_defaults :
    (∀ st : Status,
       (({} : VitalStatusBuilder).status' st).build
         = some { status := st, time_of_death := none, cause_of_death := none,
                  survival_time_in_days := 0 })
    ∧ (∀ t : OntologyClass,
       (({} : PhenotypicFeatureBuilder).type' t).bind PhenotypicFeatureBuilder.build
         = some { description := "", type := some t, excluded := false,
                  severity := none, modifiers := [], onset := none,
                  resolution := none, evidence := [] })
    ∧ (∀ w : Int,
       (({} : GestationalAgeBuilder).weeks' w).bind GestationalAgeBuilder.build
         = some { weeks := w, days := 0 }) :=
  ⟨fun _ => rfl, fun _ => rfl, fun _ => rfl⟩

/-- C1: build yields a record only when every mandatory-field marker is Set
(MetaData, Phenopacket, Individual, Resource), and from the fresh builder the
mandatory setters applied in any order reach a state whose build succeeds
(MetaData with three mandatory fields, Phenopacket with two). -/
theorem c1_finalize_iff_all_set :
    (∀ b : MetaDataBuilder, (b.build).isSome →
       b.tCreated = .set ∧ b.tCreatedBy = .set ∧ b.tVersion = .set)
    ∧ (∀ b : PhenopacketBuilder, (b.build).isSome →
       b.tId = .set ∧ b.tMetaData = .set)
    ∧ (∀ b : IndividualBuilder, (b.build).isSome → b.tId = .set)
    ∧ (∀ b : ResourceBuilder, (b.build).isSome →
       b.tId = .set ∧ b.tName = .set ∧ b.tNamespacePrefix = .set
       ∧ b.tUrl = .set ∧ b.tVersion = .set ∧ b.tIriPrefix = .set)
    ∧ (∀ (t : Timestamp) (cb v : String) (ops : List MDOp),
       ops.Perm [.created t, .created_by cb, .version v] →
       ((runOps MDstep {} ops).bind MetaDataBuilder.build).isSome)
    ∧ (∀ (i : String) (md : MetaData) (ops : List PPOp),
       ops.Perm [.id i, .meta_data md] →
       ((runOps PPstep {} ops).bind PhenopacketBuilder.build).isSome) := by
  refine ⟨?_, ?_, ?_, ?_, ?_, ?_⟩
  · intro b h
    obtain ⟨c, cb, sb, rs, us, v, er, m₁, m₂, m₃⟩ := b
    cases m₁ <;> cases m₂ <;> cases m₃ <;> simp_all [MetaDataBuilder.build]
  · intro b h
    obtain ⟨i, su, pf, ms, bs, it, ds, ma, fs, md, m₁, m₂⟩ := b
    cases m₁ <;> cases m₂ <;> simp_all [PhenopacketBuilder.build]
  · intro b h
    obtain ⟨i, ai, dob, tle, vs, sx, ks, g, tx, m⟩ := b
    cases m <;> simp_all [IndividualBuilder.build]
  · intro b h
    obtain ⟨i, n, np, u, v, ip, m₁, m₂, m₃, m₄, m₅, m₆⟩ := b
    cases m₁ <;> cases m₂ <;> cases m₃ <;> cases m₄ <;> cases m₅ <;>
      cases m₆ <;> simp_all [ResourceBuilder.build]
  · intro t cb v ops h
    rw [runOps_perm MDstep MDstep_comm h]
    rfl
  · intro i md ops h
    rw [runOps_perm PPstep PPstep_comm h]
    rfl

/-- Witness for C1 at concrete inputs: an all-Set MetaData builder whose
build succeeds has all markers Set, and a swapped setter order still reaches
a successful build for MetaData and Phenopacket. -/
theorem c1_witness :
    (({ created := some { seconds := 0, nanos := 0 }, created_by := some "curator",
        phenopacket_schema_version := some "2.0.0", tCreated := Marker.set,
        tCreatedBy := Marker.set, tVersion := Marker.set } : MetaDataBuilder).tCreated
          = Marker.set
      ∧ ({ created := some { seconds := 0, nanos := 0 }, created_by := some "curator",
           phenopacket_schema_version := some "2.0.0", tCreated := Marker.set,
           tCreatedBy := Marker.set, tVersion := Marker.set } : MetaDataBuilder).tCreatedBy
          = Marker.set
      ∧ ({ created := some { seconds := 0, nanos := 0 }, created_by := some "curator",
           phenopacket_schema_version := some "2.0.0", tCreated := Marker.set,
           tCreatedBy := Marker.set, tVersion := Marker.set } : MetaDataBuilder).tVersion
          = Marker.set)
    ∧ ((runOps MDstep {} [MDOp.created_by "curator",
          MDOp.created { seconds := 0, nanos := 0 },
          MDOp.version "2.0.0"]).bind MetaDataBuilder.build).isSome
    ∧ ((runOps PPstep {} [PPOp.meta_data
          { created := none, created_by := "curator", submitted_by := "",
            resources := [], updates := [], phenopacket_schema_version := "2.0.0",
            external_references := [] },
          PPOp.id "pp-1"]).bind PhenopacketBuilder.build).isSome :=
  ⟨c1_finalize_iff_all_set.1
     { created := some { seconds := 0, nanos := 0 }, created_by := some "curator",
       phenopacket_schema_version := some "2.0.0", tCreated := Marker.set,
       tCreatedBy := Marker.set, tVersion := Marker.set } rfl,
   c1_finalize_iff_all_set.2.2.2.2.1 { seconds := 0, nanos := 0 } "curator" "2.0.0"
     [MDOp.created_by "curator", MDOp.created { seconds := 0, nanos := 0 },
      MDOp.version "2.0.0"]
     (List.Perm.swap (MDOp.created { seconds := 0, nanos := 0 })
       (MDOp.created_by "curator") [MDOp.version "2.0.0"]),
   c1_finalize_iff_all_set.2.2.2.2.2 "pp-1"
     { created := none, created_by := "curator", submitted_by := "",
       resources := [], updates := [], phenopacket_schema_version := "2.0.0",
       external_references := [] }
     [PPOp.meta_data
        { created := none, created_by := "curator", submitted_by := "",
          resources := [], updates := [], phenopacket_schema_version := "2.0.0",
          external_references := [] },
      PPOp.id "pp-1"]
     (List.Perm.swap (PPOp.id "pp-1")
       (PPOp.meta_data
         { created := none, created_by := "curator", submitted_by := "",
           resources := [], updates := [], phenopacket_schema_version := "2.0.0",
           external_references := [] }) [])⟩

/-- C5: for MetaDataBuilder (three mandatory fields) and ResourceBuilder (six
mandatory fields), applying the mandatory setters in any permutation of the
canonical order and then building yields the identical record content. -/
theorem c5_any_order_same_record :
    (∀ (t : Timestamp) (cb v : String) (ops : List MDOp),
       ops.Perm [.created t, .created_by cb, .version v] →
       (runOps MDstep {} ops).bind MetaDataBuilder.build
         = some { created := some t, created_by := cb, submitted_by := "",
                  resources := [], updates := [],
                  phenopacket_schema_version := v, external_references := [] })
    ∧ (∀ (i n np u v ip : String) (ops : List RSetOp),
       ops.Perm [.id i, .name n, .namespacePrefix np, .url u, .version v,
                 .iriPrefix ip] →
       (runOps RSetStep {} ops).bind ResourceBuilder.build
         = some { id := i, name := n, url := u, version := v,
                  namespacePrefix := np, iriPrefix := ip }) := by
  constructor
  · intro t cb v ops h
    rw [runOps_perm MDstep MDstep_comm h]
    rfl
  · intro i n np u v ip ops h
    rw [runOps_perm RSetStep RSetStep_comm h]
    rfl

/-- Witness for C5: a swapped MetaData setter order and a rotated Resource
setter order produce exactly the canonical record. -/
theorem c5_witness :
    (runOps MDstep {} [MDOp.version "2.0.0",
        MDOp.created { seconds := 7, nanos := 8 },
        MDOp.created_by "anonymous"]).bind MetaDataBuilder.build
      = some { created := some { seconds := 7, nanos := 8 },
               created_by := "anonymous", submitted_by := "", resources := [],
               updates := [], phenopacket_schema_version := "2.0.0",
               external_references := [] }
    ∧ (runOps RSetStep {} [RSetOp.name "human phenotype ontology",
        RSetOp.id "hp", RSetOp.namespacePrefix "HP",
        RSetOp.url "https://purl.obolibrary.org/obo/hp.owl",
        RSetOp.version "2024-01-01",
        RSetOp.iriPrefix "https://purl.obolibrary.org/obo/HP_"]).bind
          ResourceBuilder.build
      = some { id := "hp", name := "human phenotype ontology",
               url := "https://purl.obolibrary.org/obo/hp.owl",
               version := "2024-01-01", namespacePrefix := "HP",
               iriPrefix := "https://purl.obolibrary.org/obo/HP_" } :=
  ⟨c5_any_order_same_record.1 { seconds := 7, nanos := 8 } "anonymous" "2.0.0"
     [MDOp.version "2.0.0", MDOp.created { seconds := 7, nanos := 8 },
      MDOp.created_by "anonymous"]
     (by decide),
   c5_any_order_same_record.2 "hp" "human phenotype ontology" "HP"
     "https://purl.obolibrary.org/obo/hp.owl" "2024-01-01"
     "https://purl.obolibrary.org/obo/HP_"
     [RSetOp.name "human phenotype ontology", RSetOp.id "hp",
      RSetOp.namespacePrefix "HP",
      RSetOp.url "https://purl.obolibrary.org/obo/hp.owl",
      RSetOp.version "2024-01-01",
      RSetOp.iriPrefix "https://purl.obolibrary.org/obo/HP_"]
     (by decide)⟩

/-- C8: on the Unset builder, iso8601timestamp returns the recoverable error
exactly when the (externally supplied) parser rejects the string; on success
it returns a Set-state builder holding the parsed timestamp; after a failure
the caller can retry the same builder with a corrected string (nothing was
consumed or mutated: the value-level builder is unchanged). -/
theorem c8_iso8601_error_exactly_on_parse_failure :
    ∀ (parse : String → Option Timestamp) (b : TimestampBuilder) (s : String),
      b.tState = .unset →
      ((TimestampBuilder.iso8601timestamp parse b s
          = some (Except.error TimestampError.invalidTimestamp)) ↔ parse s = none)
      ∧ (∀ t, parse s = some t →
          TimestampBuilder.iso8601timestamp parse b s
            = some (Except.ok { timestamp := some t, tState := Marker.set }))
      ∧ (parse s = none → ∀ (s' : String) (t : Timestamp), parse s' = some t →
          TimestampBuilder.iso8601timestamp parse b s'
            = some (Except.ok { timestamp := some t, tState := Marker.set })) := by
  intro parse b s hb
  have hred : ∀ s₀ : String, TimestampBuilder.iso8601timestamp parse b s₀
      = match parse s₀ with
        | some t => some (Except.ok { timestamp := some t, tState := Marker.set })
        | none => some (Except.error TimestampError.invalidTimestamp) := by
    intro s₀
    unfold TimestampBuilder.iso8601timestamp
    rw [hb]
  refine ⟨?_, ?_, ?_⟩
  · rw [hred s]
    cases hp : parse s with
    | none => simp
    | some t => simp
  · intro t hp
    rw [hred s, hp]
  · intro _ s' t hp
    rw [hred s', hp]

/-- Witness for C8: with a rejecting parser the error is returned, and with
an accepting parser the Set-state builder holds the parsed timestamp. -/
theorem c8_witness :
    TimestampBuilder.iso8601timestamp (fun _ => none) {} "not-a-timestamp"
      = some (Except.error TimestampError.invalidTimestamp)
    ∧ TimestampBuilder.iso8601timestamp
        (fun _ => some { seconds := 605, nanos := 0 }) {} "1970-01-01T00:10:05Z"
      = some (Except.ok { timestamp := some { seconds := 605, nanos := 0 },
                          tState := Marker.set }) :=
  ⟨((c8_iso8601_error_exactly_on_parse_failure (fun _ => none) {}
      "not-a-timestamp" rfl).1).mpr rfl,
   (c8_iso8601_error_exactly_on_parse_failure
      (fun _ => some { seconds := 605, nanos := 0 }) {}
      "1970-01-01T00:10:05Z" rfl).2.1 { seconds := 605, nanos := 0 } rfl⟩

/-- C10: for every builder state reachable through the public API whose
markers are all Set, build succeeds: the marker invariant guarantees each
tracked Option field is populated, so no expect branch is reachable
(OntologyClass, Resource and Individual builders). -/
theorem c10_reachable_build_never_panics :
    (∀ (ops : List OCOp) (b : OntologyClassBuilder),
       runOps OCstep {} ops = some b → b.tState = .set →
       (OntologyClassBuilder.build b).isSome)
    ∧ (∀ (ops : List ROp) (b : ResourceBuilder),
       runOps Rstep {} ops = some b →
       b.tId = .set → b.tName = .set → b.tNamespacePrefix = .set →
       b.tUrl = .set → b.tVersion = .set → b.tIriPrefix = .set →
       (ResourceBuilder.build b).isSome)
    ∧ (∀ (ops : List IOp) (b : IndividualBuilder),
       runOps Istep {} ops = some b → b.tId = .set →
       (IndividualBuilder.build b).isSome) := by
  refine ⟨?_, ?_, ?_⟩
  · intro ops b hrun hset
    have hinv : OCInv b :=
      runOps_preserves OCstep OCInv OCstep_inv ops {} b hrun (fun h => nomatch h)
    obtain ⟨hi, hl⟩ := hinv hset
    obtain ⟨i, hi⟩ := Option.isSome_iff_exists.mp hi
    obtain ⟨l, hl⟩ := Option.isSome_iff_exists.mp hl
    simp [OntologyClassBuilder.build, hset, hi, hl]
  · intro ops b hrun h₁ h₂ h₃ h₄ h₅ h₆
    have hinit : RInv ({} : ResourceBuilder) := by
      refine ⟨?_, ?_, ?_, ?_, ?_, ?_⟩ <;> intro h <;> exact nomatch h
    have hinv : RInv b :=
      runOps_preserves Rstep RInv Rstep_inv ops {} b hrun hinit
    obtain ⟨g₁, g₂, g₃, g₄, g₅, g₆⟩ := hinv
    obtain ⟨i, hi⟩ := Option.isSome_iff_exists.mp (g₁ h₁)
    obtain ⟨n, hn⟩ := Option.isSome_iff_exists.mp (g₂ h₂)
    obtain ⟨np, hnp⟩ := Option.isSome_iff_exists.mp (g₃ h₃)
    obtain ⟨u, hu⟩ := Option.isSome_iff_exists.mp (g₄ h₄)
    obtain ⟨v, hv⟩ := Option.isSome_iff_exists.mp (g₅ h₅)
    obtain ⟨ip, hip⟩ := Option.isSome_iff_exists.mp (g₆ h₆)
    simp [ResourceBuilder.build, h₁, h₂, h₃, h₄, h₅, h₆, hi, hn, hnp, hu, hv, hip]
  · intro ops b hrun hset
    have hinv : IInv b :=
      runOps_preserves Istep IInv Istep_inv ops {} b hrun (fun h => nomatch h)
    obtain ⟨i, hi⟩ := Option.isSome_iff_exists.mp (hinv hset)
    simp [IndividualBuilder.build, hset, hi]

/-- Witness for C10: concrete public-API runs (the id_label call, the hpo
preset, the id setter after an append) reach all-Set builders whose build
succeeds. -/
theorem c10_witness :
    (OntologyClassBuilder.build
       { id := some "HP:0001250", label := some "Seizure",
         tState := Marker.set }).isSome
    ∧ (ResourceBuilder.build
        (ResourceBuilder.preset "hp" "human phenotype ontology" "HP"
          "https://purl.obolibrary.org/obo/hp.owl" "2024-01-01"
          "https://purl.obolibrary.org/obo/HP_")).isSome
    ∧ (IndividualBuilder.build
        { id := some "patient-1", alternate_ids := ["alt-1"],
          tId := Marker.set }).isSome :=
  ⟨c10_reachable_build_never_panics.1 [OCOp.id_label "HP:0001250" "Seizure"]
     { id := some "HP:0001250", label := some "Seizure", tState := Marker.set }
     rfl rfl,
   c10_reachable_build_never_panics.2.1 [ROp.hpo "2024-01-01"]
     (ResourceBuilder.preset "hp" "human phenotype ontology" "HP"
       "https://purl.obolibrary.org/obo/hp.owl" "2024-01-01"
       "https://purl.obolibrary.org/obo/HP_")
     rfl rfl rfl rfl rfl rfl rfl,
   c10_reachable_build_never_panics.2.2
     [IOp.add_alternate_id "alt-1", IOp.id "patient-1"]
     { id := some "patient-1", alternate_ids := ["alt-1"], tId := Marker.set }
     rfl rfl⟩

end PB
